import Mathlib

/-!
Verification of the `gradient_selection` pipeline (CT-PET study selection).

This file gives a shallow embedding of the pure logic of
`src/gradient_selection/selection.py`, `llm.py` and `extraction.py`:

* `Json` models the universe of Python values that can appear in a table
  cell or inside a parsed JSON document (None, bool, int, str, list, dict).
  Fractional JSON numbers never occur in the claims under study, so the
  numeric constructor carries an `Int` (the integer fragment of JSON).
* `json_loads` models `json.loads` on strings (recursive-descent parser with
  explicit fuel, strict about trailing data, as the Python parser is).
* Operations that can raise in Python (`.lower()` on a non-string,
  iterating a non-iterable, `in` on an unhashable value, `.get` on a
  non-dict) are embedded in `Except String`.
-/

set_option maxRecDepth 4000

namespace CTPet

/-- Python values occurring in table cells and parsed JSON documents. -/
inductive Json where
  | null : Json
  | bool (b : Bool) : Json
  | num (n : Int) : Json
  | str (s : String) : Json
  | arr (items : List Json) : Json
  | obj (fields : List (String × Json)) : Json

/-- The left-brace character, written by code point. -/
def lbraceChar : Char := '\x7b'

/-- The right-brace character, written by code point. -/
def rbraceChar : Char := '\x7d'

/-- The double-quote character. -/
def dquoteChar : Char := '"'

/-- The single-quote character, written by code point. -/
def squoteChar : Char := '\x27'

mutual

/-- Python `repr` of a value (as used by `str()` on non-string containers). -/
def pyRepr : Json → String
  | Json.null => "None"
  | Json.bool true => "True"
  | Json.bool false => "False"
  | Json.num n => toString n
  | Json.str s => String.mk (squoteChar :: s.data ++ [squoteChar])
  | Json.arr xs => "[" ++ pyReprList xs ++ "]"
  | Json.obj fs => String.mk (lbraceChar :: (pyReprFields fs).data ++ [rbraceChar])

/-- `repr` of list elements, comma-separated. -/
def pyReprList : List Json → String
  | [] => ""
  | [x] => pyRepr x
  | x :: y :: rest => pyRepr x ++ ", " ++ pyReprList (y :: rest)

/-- `repr` of dict entries, comma-separated. -/
def pyReprFields : List (String × Json) → String
  | [] => ""
  | [(k, v)] => String.mk (squoteChar :: k.data ++ [squoteChar]) ++ ": " ++ pyRepr v
  | (k, v) :: y :: rest =>
      String.mk (squoteChar :: k.data ++ [squoteChar]) ++ ": " ++ pyRepr v ++ ", " ++
        pyReprFields (y :: rest)

end

/-- Python `str()` of a value. -/
def pyStr : Json → String
  | Json.str s => s
  | v => pyRepr v

/-- Python truthiness of a value. -/
def pyTruthy : Json → Bool
  | Json.null => false
  | Json.bool b => b
  | Json.num n => n != 0
  | Json.str s => s != ""
  | Json.arr xs => !xs.isEmpty
  | Json.obj fs => !fs.isEmpty

/-- Characters stripped by Python `str.strip()`. -/
def isPyWs (c : Char) : Bool :=
  c == ' ' || c == '\t' || c == '\n' || c == '\r' || c == '\x0b' || c == '\x0c'

/-- Python `str.strip()`. -/
def pyStrip (s : String) : String :=
  String.mk (((s.data.dropWhile isPyWs).reverse.dropWhile isPyWs).reverse)

/-- Python `str.lower()` (ASCII fragment). -/
def pyLower (s : String) : String :=
  String.mk (s.data.map Char.toLower)

/-- Does `pat` occur at the head of `cs`? -/
def charsLeadMatch : List Char → List Char → Bool
  | [], _ => true
  | _ :: _, [] => false
  | a :: as, b :: bs => a == b && charsLeadMatch as bs

/-- Does `pat` occur anywhere in `cs`?  Models Python `pat in cs`. -/
def charsHas (pat : List Char) : List Char → Bool
  | [] => pat.isEmpty
  | c :: rest => charsLeadMatch pat (c :: rest) || charsHas pat rest

/-- Python substring test `needle in hay`. -/
def strContains (hay needle : String) : Bool :=
  charsHas needle.data hay.data

/-! ### A model of `json.loads` -/

/-- JSON whitespace. -/
def jsonWs (c : Char) : Bool :=
  c == ' ' || c == '\t' || c == '\n' || c == '\r'

/-- Drop leading JSON whitespace. -/
def skipWs (cs : List Char) : List Char :=
  cs.dropWhile jsonWs

/-- Translate a JSON string escape character. -/
def jsonEscape (c : Char) : Option Char :=
  if c == dquoteChar then some dquoteChar
  else if c == '\\' then some '\\'
  else if c == '/' then some '/'
  else if c == 'n' then some '\n'
  else if c == 't' then some '\t'
  else if c == 'r' then some '\r'
  else if c == 'b' then some '\x08'
  else if c == 'f' then some '\x0c'
  else none

/-- Parse the body of a JSON string after the opening quote; returns the
content and the remainder after the closing quote. -/
def parseStringBody : List Char → Option (List Char × List Char)
  | [] => none
  | '\\' :: rest =>
      match rest with
      | [] => none
      | e :: rest2 =>
          match jsonEscape e with
          | none => none
          | some c =>
              match parseStringBody rest2 with
              | none => none
              | some (content, rem) => some (c :: content, rem)
  | c :: rest =>
      if c == dquoteChar then some ([], rest)
      else
        match parseStringBody rest with
        | none => none
        | some (content, rem) => some (c :: content, rem)

/-- Parse a nonempty run of decimal digits. -/
def parseDigits (cs : List Char) : Option (Nat × List Char) :=
  let ds := cs.takeWhile Char.isDigit
  if ds.isEmpty then none
  else some (ds.foldl (fun a c => a * 10 + (c.toNat - 48)) 0, cs.dropWhile Char.isDigit)

mutual

/-- Parse one JSON value (fuel-indexed recursive descent). -/
def jvalue : Nat → List Char → Except String (Json × List Char)
  | 0, _ => Except.error "Expecting value"
  | Nat.succ fuel, cs =>
      match skipWs cs with
      | [] => Except.error "Expecting value"
      | 'n' :: 'u' :: 'l' :: 'l' :: rest => Except.ok (Json.null, rest)
      | 't' :: 'r' :: 'u' :: 'e' :: rest => Except.ok (Json.bool true, rest)
      | 'f' :: 'a' :: 'l' :: 's' :: 'e' :: rest => Except.ok (Json.bool false, rest)
      | '-' :: rest =>
          match parseDigits rest with
          | some (n, rest2) => Except.ok (Json.num (-(n : Int)), rest2)
          | none => Except.error "Expecting value"
      | c :: rest =>
          if c == dquoteChar then
            match parseStringBody rest with
            | some (content, rest2) => Except.ok (Json.str (String.mk content), rest2)
            | none => Except.error "Unterminated string"
          else if c == '[' then
            match skipWs rest with
            | ']' :: rest2 => Except.ok (Json.arr [], rest2)
            | _ =>
                match jelems fuel rest with
                | Except.ok (items, rest2) => Except.ok (Json.arr items, rest2)
                | Except.error e => Except.error e
          else if c == lbraceChar then
            match skipWs rest with
            | d :: rest2 =>
                if d == rbraceChar then Except.ok (Json.obj [], rest2)
                else
                  match jmembers fuel rest with
                  | Except.ok (fields, rest2) => Except.ok (Json.obj fields, rest2)
                  | Except.error e => Except.error e
            | [] => Except.error "Expecting property name"
          else if c.isDigit then
            match parseDigits (c :: rest) with
            | some (n, rest2) => Except.ok (Json.num (n : Int), rest2)
            | none => Except.error "Expecting value"
          else Except.error "Expecting value"

/-- Parse array elements up to and including the closing bracket. -/
def jelems : Nat → List Char → Except String (List Json × List Char)
  | 0, _ => Except.error "Expecting value"
  | Nat.succ fuel, cs =>
      match jvalue fuel cs with
      | Except.error e => Except.error e
      | Except.ok (v, rest) =>
          match skipWs rest with
          | ',' :: rest2 =>
              match jelems fuel rest2 with
              | Except.ok (items, rest3) => Except.ok (v :: items, rest3)
              | Except.error e => Except.error e
          | ']' :: rest2 => Except.ok ([v], rest2)
          | _ => Except.error "Expecting comma delimiter"

/-- Parse object members up to and including the closing brace. -/
def jmembers : Nat → List Char → Except String (List (String × Json) × List Char)
  | 0, _ => Except.error "Expecting value"
  | Nat.succ fuel, cs =>
      match skipWs cs with
      | c :: rest =>
          if c == dquoteChar then
            match parseStringBody rest with
            | none => Except.error "Unterminated string"
            | some (key, rest2) =>
                match skipWs rest2 with
                | ':' :: rest3 =>
                    match jvalue fuel rest3 with
                    | Except.error e => Except.error e
                    | Except.ok (v, rest4) =>
                        match skipWs rest4 with
                        | ',' :: rest5 =>
                            match jmembers fuel rest5 with
                            | Except.ok (fields, rest6) =>
                                Except.ok ((String.mk key, v) :: fields, rest6)
                            | Except.error e => Except.error e
                        | d :: rest5 =>
                            if d == rbraceChar then
                              Except.ok ([(String.mk key, v)], rest5)
                            else Except.error "Expecting comma delimiter"
                        | [] => Except.error "Expecting comma delimiter"
                | _ => Except.error "Expecting colon delimiter"
          else Except.error "Expecting property name"
      | [] => Except.error "Expecting property name"

end

/-- Model of Python `json.loads` on a string: parse one value, then require
only whitespace to remain. -/
def json_loads (s : String) : Except String Json :=
  match jvalue (2 * s.data.length + 2) s.data with
  | Except.error e => Except.error e
  | Except.ok (v, rest) =>
      if (skipWs rest).isEmpty then Except.ok v else Except.error "Extra data"

/-! ### selection.py -/

/-- `_ALLOWED_DIAGNOSES` from `selection.py`. -/
def allowedDiagnoses : List String := ["Primary Lung Cancer", "No Cancer"]

/-- `_ALLOWED_REASONS` from `selection.py`. -/
def allowedReasons : List String := ["Indeterminate Pulmonary Nodule"]

/-- `_parse_json_cell`: `None` and `dict` pass through; anything else is
stringified and parsed, any parse failure yielding an empty mapping. -/
def parse_json_cell : Json → Json
  | Json.null => Json.obj []
  | Json.obj fs => Json.obj fs
  | v =>
      match json_loads (pyStr v) with
      | Except.ok parsed => parsed
      | Except.error _ => Json.obj []

/-- `_list_empty`: `None` and the empty list are empty; a string that
JSON-parses to a list is tested for emptiness; every other value (including
a string that fails to parse, and non-string scalars on which `json.loads`
raises `TypeError`, which the bare `except` swallows) is non-empty. -/
def list_empty : Json → Bool
  | Json.null => true
  | Json.arr xs => xs.isEmpty
  | Json.str s =>
      match json_loads s with
      | Except.ok (Json.arr xs) => xs.isEmpty
      | _ => false
  | _ => false

/-- Python iteration over a value: lists yield elements, strings yield
one-character strings, dicts yield their keys; other values raise. -/
def pyIterate : Json → Except String (List Json)
  | Json.arr xs => Except.ok xs
  | Json.str s => Except.ok (s.data.map (fun c => Json.str (String.mk [c])))
  | Json.obj fields => Except.ok (fields.map (fun kv => Json.str kv.1))
  | _ => Except.error "TypeError: object is not iterable"

/-- The loop body of `_contains_chest`: `.lower()` raises `AttributeError`
on a non-string element, but only when reached (the loop returns at the
first match). -/
def containsChestList : List Json → Except String Bool
  | [] => Except.ok false
  | Json.str s :: rest =>
      if strContains (pyLower s) "chest" then Except.ok true
      else containsChestList rest
  | _ :: _ => Except.error "AttributeError: lower"

/-- `_contains_chest` over an arbitrary value for its `regions` argument
(the call site passes whatever `ct.get` produced). -/
def contains_chest (regions : Json) : Except String Bool :=
  match pyIterate regions with
  | Except.error e => Except.error e
  | Except.ok items => containsChestList items

/-- Membership of a value in a set of strings; Python raises `TypeError`
when the value is unhashable (a list or a dict). -/
def pySetMem (v : Json) (s : List String) : Except String Bool :=
  match v with
  | Json.arr _ => Except.error "TypeError: unhashable type: list"
  | Json.obj _ => Except.error "TypeError: unhashable type: dict"
  | Json.str x => Except.ok (s.contains x)
  | _ => Except.ok false

/-- A table row: association list of column name to cell value. -/
abbrev Row : Type := List (String × Json)

/-- `row.get(key)`: the cell value, `None` when the column is absent. -/
def rowGet (row : Row) (key : String) : Json :=
  match List.find? (fun kv => kv.1 == key) row with
  | some kv => kv.2
  | none => Json.null

/-- Lookup in a parsed JSON object; the last binding wins, as in a Python
dict built by the `json` parser. -/
def objLookup (fields : List (String × Json)) (key : String) : Option Json :=
  (List.find? (fun kv => kv.1 == key) fields.reverse).map (fun kv => kv.2)

/-- Python `d.get(key, default)`; raises `AttributeError` when the receiver
is not a dict (which `_parse_json_cell` can produce for non-object JSON). -/
def dictGet (d : Json) (key : String) (dflt : Json) : Except String Json :=
  match d with
  | Json.obj fields => Except.ok ((objLookup fields key).getD dflt)
  | _ => Except.error "AttributeError: get"

/-- Python `value == []`. -/
def isEmptyList : Json → Bool
  | Json.arr [] => true
  | _ => false

/-- `evaluate_row` from `selection.py`, with each raising operation embedded in
`Except` and side conditions evaluated in source order. -/
def evaluate_row (row : Row) : Except String (Bool × List String) :=
  if pyTruthy (rowGet row "extraction_error") then
    Except.ok (false, ["extraction_error"])
  else
    let ct := parse_json_cell (rowGet row "ct_json")
    let pet := parse_json_cell (rowGet row "pet_json")
    match dictGet ct "CT_Regions" (Json.arr []) with
    | Except.error e => Except.error e
    | Except.ok ct_regions =>
    match dictGet ct "CT_Contrast_Agent" (Json.str "") with
    | Except.error e => Except.error e
    | Except.ok ct_contrast =>
    match dictGet ct "Lung_Nodules" (Json.arr []) with
    | Except.error e => Except.error e
    | Except.ok lung_nodules =>
    match contains_chest ct_regions with
    | Except.error e => Except.error e
    | Except.ok chest =>
    let reasons1 : List String := if chest then [] else ["ct_not_chest"]
    let reasons2 : List String :=
      if pyLower (pyStrip (pyStr ct_contrast)) != "none" then
        reasons1 ++ ["ct_contrast_present"]
      else reasons1
    let reasons3 : List String :=
      if !pyTruthy lung_nodules || isEmptyList lung_nodules then
        reasons2 ++ ["no_lung_nodules"]
      else reasons2
    match dictGet pet "Clinical_Reason" (Json.str "") with
    | Except.error e => Except.error e
    | Except.ok clinical_reason =>
    match dictGet pet "Primary_Diagnosis" (Json.str "") with
    | Except.error e => Except.error e
    | Except.ok primary_dx =>
    match dictGet pet "Lymph_Nodes_Hypermetabolic_Regions" (Json.arr []) with
    | Except.error e => Except.error e
    | Except.ok lymph_nodes =>
    match dictGet pet "Other_Hypermetabolic_Regions" (Json.arr []) with
    | Except.error e => Except.error e
    | Except.ok other_hyper =>
    match pySetMem clinical_reason allowedReasons with
    | Except.error e => Except.error e
    | Except.ok reasonIn =>
    let reasons4 : List String :=
      if !reasonIn then reasons3 ++ ["pet_reason_not_indeterminate_nodule"] else reasons3
    match pySetMem primary_dx allowedDiagnoses with
    | Except.error e => Except.error e
    | Except.ok dxIn =>
    let reasons5 : List String :=
      if !dxIn then reasons4 ++ ["pet_primary_dx_not_allowed"] else reasons4
    let reasons6 : List String :=
      if !list_empty lymph_nodes then reasons5 ++ ["pet_lymph_hypermetabolic"] else reasons5
    let reasons7 : List String :=
      if !list_empty other_hyper then reasons6 ++ ["pet_other_hypermetabolic"] else reasons6
    Except.ok (reasons7.isEmpty, reasons7)

/-- The pass/fail flag of each of the seven post-error rules of
`evaluate_row` (`true` means the rule passes, no reason appended). -/
structure RuleFlags where
  chest : Bool
  contrastNone : Bool
  hasNodules : Bool
  reasonAllowed : Bool
  dxAllowed : Bool
  lymphEmpty : Bool
  otherEmpty : Bool
deriving Repr, DecidableEq

/-- The seven rule evaluations of `evaluate_row`, performed in source
order but independently of one another. -/
def ruleFlags (row : Row) : Except String RuleFlags :=
  let ct := parse_json_cell (rowGet row "ct_json")
  let pet := parse_json_cell (rowGet row "pet_json")
  match dictGet ct "CT_Regions" (Json.arr []) with
  | Except.error e => Except.error e
  | Except.ok ct_regions =>
  match dictGet ct "CT_Contrast_Agent" (Json.str "") with
  | Except.error e => Except.error e
  | Except.ok ct_contrast =>
  match dictGet ct "Lung_Nodules" (Json.arr []) with
  | Except.error e => Except.error e
  | Except.ok lung_nodules =>
  match contains_chest ct_regions with
  | Except.error e => Except.error e
  | Except.ok chest =>
  match dictGet pet "Clinical_Reason" (Json.str "") with
  | Except.error e => Except.error e
  | Except.ok clinical_reason =>
  match dictGet pet "Primary_Diagnosis" (Json.str "") with
  | Except.error e => Except.error e
  | Except.ok primary_dx =>
  match dictGet pet "Lymph_Nodes_Hypermetabolic_Regions" (Json.arr []) with
  | Except.error e => Except.error e
  | Except.ok lymph_nodes =>
  match dictGet pet "Other_Hypermetabolic_Regions" (Json.arr []) with
  | Except.error e => Except.error e
  | Except.ok other_hyper =>
  match pySetMem clinical_reason allowedReasons with
  | Except.error e => Except.error e
  | Except.ok reasonIn =>
  match pySetMem primary_dx allowedDiagnoses with
  | Except.error e => Except.error e
  | Except.ok dxIn =>
  Except.ok
    { chest := chest
      contrastNone := !(pyLower (pyStrip (pyStr ct_contrast)) != "none")
      hasNodules := !(!pyTruthy lung_nodules || isEmptyList lung_nodules)
      reasonAllowed := reasonIn
      dxAllowed := dxIn
      lymphEmpty := list_empty lymph_nodes
      otherEmpty := list_empty other_hyper }

/-- The audit reasons determined by the rule flags: each failing rule
contributes its named reason, in the fixed source order. -/
def flagReasons (f : RuleFlags) : List String :=
  (if f.chest then [] else ["ct_not_chest"]) ++
  (if f.contrastNone then [] else ["ct_contrast_present"]) ++
  (if f.hasNodules then [] else ["no_lung_nodules"]) ++
  (if f.reasonAllowed then [] else ["pet_reason_not_indeterminate_nodule"]) ++
  (if f.dxAllowed then [] else ["pet_primary_dx_not_allowed"]) ++
  (if f.lymphEmpty then [] else ["pet_lymph_hypermetabolic"]) ++
  (if f.otherEmpty then [] else ["pet_other_hypermetabolic"])

/-! ### llm.py -/

/-- Python `text.find(c)`: index of the first occurrence, `none` for `-1`. -/
def pyFind (s : String) (c : Char) : Option Nat :=
  List.findIdx? (fun x => x == c) s.data

/-- Python `text.rfind(c)`: index of the last occurrence, `none` for `-1`. -/
def pyRFind (s : String) (c : Char) : Option Nat :=
  (List.findIdx? (fun x => x == c) s.data.reverse).map
    (fun j => s.data.length - 1 - j)

/-- Python slice `t[a:b]` for `0 ≤ a ≤ b`. -/
def strSlice (t : String) (a b : Nat) : String :=
  String.mk ((t.data.drop a).take (b - a))

/-- `_parse_json` from `llm.py`: strict parse of the stripped text, then a
fallback parse of the first-brace .. last-brace slice, re-raising the
original error when no such slice exists. -/
def parse_json (text : String) : Except String Json :=
  let t := pyStrip text
  match json_loads t with
  | Except.ok v => Except.ok v
  | Except.error e =>
      match pyFind t lbraceChar, pyRFind t rbraceChar with
      | some a, some b =>
          if a < b then json_loads (strSlice t a (b + 1))
          else Except.error e
      | some _, none => Except.error e
      | none, _ => Except.error e

/-- A parsed extraction result (a Python dict of JSON fields). -/
abbrev Dict : Type := List (String × Json)

/-- The retry loop of `_extract_with_retry`: `attempt` is the 1-based
attempt counter, `fuel` the number of attempts still permitted
(`retries - attempt + 1` at every call).  Returns the outcome together
with the list of back-off sleep durations (`2 ^ attempt` seconds after
each non-final failed attempt).  When the loop runs out without a final
attempt (only possible when `retries < 1`), the function falls through to
its trailing `return` of an empty mapping. -/
def retryAux (call : Nat → Except String Dict) (retries : Nat) :
    Nat → Nat → Except String Dict × List Nat
  | _, 0 => (Except.ok ([] : List (String × Json)), [])
  | attempt, Nat.succ fuel =>
      match call attempt with
      | Except.ok a => (Except.ok a, [])
      | Except.error e =>
          if attempt == retries then (Except.error e, [])
          else
            match retryAux call retries (attempt + 1) fuel with
            | (res, sleeps) => (res, (2 ^ attempt) :: sleeps)

/-- `_extract_with_retry` from `llm.py`, abstracted over the outcome of
each attempt (`call i` is the result of the `i`-th LLM call: the parsed
JSON on success, the raised exception on failure). -/
def extract_with_retry (call : Nat → Except String Dict) (retries : Nat) :
    Except String Dict × List Nat :=
  retryAux call retries 1 retries

/-! ### extraction.py -/

/-- Escape one character for JSON serialization (`json.dumps`). -/
def jdumpEscape (c : Char) : List Char :=
  if c == dquoteChar then ['\\', dquoteChar]
  else if c == '\\' then ['\\', '\\']
  else if c == '\n' then ['\\', 'n']
  else if c == '\t' then ['\\', 't']
  else if c == '\r' then ['\\', 'r']
  else [c]

mutual

/-- Model of `json.dumps` with its default separators. -/
def jdump : Json → String
  | Json.null => "null"
  | Json.bool true => "true"
  | Json.bool false => "false"
  | Json.num n => toString n
  | Json.str s =>
      String.mk (dquoteChar :: (s.data.map jdumpEscape).flatten ++ [dquoteChar])
  | Json.arr xs => "[" ++ jdumpList xs ++ "]"
  | Json.obj fs => String.mk (lbraceChar :: (jdumpFields fs).data ++ [rbraceChar])

/-- Serialize list elements, comma-separated. -/
def jdumpList : List Json → String
  | [] => ""
  | [x] => jdump x
  | x :: y :: rest => jdump x ++ ", " ++ jdumpList (y :: rest)

/-- Serialize object entries, comma-separated. -/
def jdumpFields : List (String × Json) → String
  | [] => ""
  | [(k, v)] =>
      String.mk (dquoteChar :: (k.data.map jdumpEscape).flatten ++ [dquoteChar]) ++
        ": " ++ jdump v
  | (k, v) :: y :: rest =>
      String.mk (dquoteChar :: (k.data.map jdumpEscape).flatten ++ [dquoteChar]) ++
        ": " ++ jdump v ++ ", " ++ jdumpFields (y :: rest)

end

/-- `_EXPECTED_CT_KEYS` from `extraction.py`. -/
def expectedCtKeys : List String := ["CT_Regions", "CT_Contrast_Agent", "Lung_Nodules"]

/-- `_EXPECTED_PET_KEYS` from `extraction.py`. -/
def expectedPetKeys : List String :=
  ["Lung_Hypermetabolic_Regions",
   "Lymph_Nodes_Hypermetabolic_Regions",
   "Other_Hypermetabolic_Regions",
   "PET_Tracer",
   "PET_Scan_Region",
   "PET_Blood_Glucose_Level",
   "PET_Waiting_Time",
   "Clinical_Reason",
   "Primary_Diagnosis"]

/-- `_normalize_json_value`: `None` becomes the empty string, containers
are serialized, scalars pass through. -/
def normalize_json_value : Json → Json
  | Json.null => Json.str ""
  | Json.arr xs => Json.str (jdump (Json.arr xs))
  | Json.obj fs => Json.str (jdump (Json.obj fs))
  | v => v

/-- The keys of an extraction dict. -/
def dictKeys (d : Dict) : List String :=
  d.map (fun kv => kv.1)

/-- Python `item.get(key)` on an extraction dict (`None` when absent). -/
def dictFind (d : Dict) (key : String) : Json :=
  (objLookup d key).getD Json.null

/-- The set of keys appearing in any of the extraction dicts
(`{key for item in values for key in item.keys()}`). -/
def discoveredKeys (values : List Dict) : List String :=
  ((values.map dictKeys).flatten).dedup

/-- Boolean string comparison used to model Python `sorted` on strings. -/
def strLeB (a b : String) : Bool :=
  decide (a ≤ b)

/-- `_ordered_keys` from `extraction.py`: expected keys that were
discovered, in their fixed priority order, then the remaining discovered
keys sorted. -/
def ordered_keys (values : List Dict) (expected : List String) : List String :=
  let discovered := discoveredKeys values
  let extras := (discovered.filter (fun k => !expected.contains k)).mergeSort strLeB
  expected.filter (fun k => discovered.contains k) ++ extras

/-- The per-row outcome recorded by the `as_completed` loop of
`run_extraction`: original row index, the two parsed results, and the
per-row error string. -/
structure RowResult where
  idx : Nat
  ct : Dict
  pet : Dict
  err : String

/-- One iteration of the `as_completed` loop: a successful future yields
its two dicts with an empty error string; a raising future is caught and
recorded as the exception text with both dicts defaulting to empty. -/
def pairOutcome (extract : Nat → Except String (Dict × Dict)) (i : Nat) : RowResult :=
  match extract i with
  | Except.ok (c, p) => ⟨i, c, p, ""⟩
  | Except.error e => ⟨i, [], [], e⟩

/-- The `results` list accumulated by the `as_completed` loop, when the
futures complete in the order given by `order`. -/
def collectResults (extract : Nat → Except String (Dict × Dict))
    (order : List Nat) : List RowResult :=
  order.map (pairOutcome extract)

/-- `sorted(results, key=lambda x: x[0])`. -/
def sortResults (rs : List RowResult) : List RowResult :=
  rs.mergeSort (fun a b => a.idx ≤ b.idx)

/-- Assign a cell in a row (`pandas` column assignment restricted to one
row): replace the value when the column exists, append it otherwise. -/
def rowSet (row : Row) (key : String) (v : Json) : Row :=
  match row with
  | [] => [(key, v)]
  | kv :: rest =>
      if kv.1 == key then (key, v) :: rest else kv :: rowSet rest key v

/-- `out_df[name] = vals`: assign a full column across the table. -/
def addColumn (tbl : List Row) (name : String) (vals : List Json) : List Row :=
  tbl.zipWith (fun r v => rowSet r name v) vals

/-- `df.head(n)` for an `int` argument (negative `n` drops `-n` trailing
rows, as in pandas). -/
def pyHead {α : Type} (n : Int) (rows : List α) : List α :=
  if 0 ≤ n then rows.take n.toNat
  else rows.take (rows.length - (-n).toNat)

/-- The `if max_rows: df = df.head(max_rows)` guard of `run_extraction`:
`None` and `0` are falsy and leave the table unchanged. -/
def pyHeadOpt {α : Type} (maxRows : Option Int) (rows : List α) : List α :=
  match maxRows with
  | none => rows
  | some n => if n == 0 then rows else pyHead n rows

/-- The pure content of `run_extraction`: truncate the input table, record
one `RowResult` per completed future in completion order, re-sort by
original index, attach the `ct_json`/`pet_json`/`extraction_error`
columns, then materialize one flattened column per discovered key.
`extract i` is the outcome of `_extract_pair` for input row `i`, and
`order` is the order in which the futures complete. -/
def run_extraction (rows0 : List Row)
    (extract : Nat → Except String (Dict × Dict))
    (order : List Nat) (maxRows : Option Int) : List Row :=
  let rows := pyHeadOpt maxRows rows0
  let sorted := sortResults (collectResults extract order)
  let ctJsons := sorted.map (fun r => r.ct)
  let petJsons := sorted.map (fun r => r.pet)
  let errors := sorted.map (fun r => r.err)
  let t := addColumn rows "ct_json" (ctJsons.map (fun d => Json.str (jdump (Json.obj d))))
  let t := addColumn t "pet_json" (petJsons.map (fun d => Json.str (jdump (Json.obj d))))
  let t := addColumn t "extraction_error" (errors.map Json.str)
  let ctKeys := ordered_keys ctJsons expectedCtKeys
  let petKeys := ordered_keys petJsons expectedPetKeys
  let t := ctKeys.foldl
    (fun acc key =>
      addColumn acc ("ct_" ++ key)
        (ctJsons.map (fun d => normalize_json_value (dictFind d key)))) t
  let t := petKeys.foldl
    (fun acc key =>
      addColumn acc ("pet_" ++ key)
        (petJsons.map (fun d => normalize_json_value (dictFind d key)))) t
  t

/-! ### Selection lemmas -/

/-- On a row without an extraction error, `evaluate_row` is the purely
rule-wise computation: all seven rules are evaluated, each failing rule
contributes its named reason, and the verdict is emptiness of the
accumulated reason list. -/
theorem evaluate_row_eq_flags (row : Row)
    (hno : pyTruthy (rowGet row "extraction_error") = false) :
    evaluate_row row =
      Except.map (fun f => ((flagReasons f).isEmpty, flagReasons f)) (ruleFlags row) := by
  rw [evaluate_row, ruleFlags, hno]
  simp only [Bool.false_eq_true, if_false]
  cases dictGet (parse_json_cell (rowGet row "ct_json")) "CT_Regions" (Json.arr []) with
  | error e => rfl
  | ok ct_regions =>
  dsimp only
  cases dictGet (parse_json_cell (rowGet row "ct_json")) "CT_Contrast_Agent" (Json.str "") with
  | error e => rfl
  | ok ct_contrast =>
  dsimp only
  cases dictGet (parse_json_cell (rowGet row "ct_json")) "Lung_Nodules" (Json.arr []) with
  | error e => rfl
  | ok lung_nodules =>
  dsimp only
  cases contains_chest ct_regions with
  | error e => rfl
  | ok chest =>
  dsimp only
  cases dictGet (parse_json_cell (rowGet row "pet_json")) "Clinical_Reason" (Json.str "") with
  | error e => rfl
  | ok clinical_reason =>
  dsimp only
  cases dictGet (parse_json_cell (rowGet row "pet_json")) "Primary_Diagnosis" (Json.str "") with
  | error e => rfl
  | ok primary_dx =>
  dsimp only
  cases dictGet (parse_json_cell (rowGet row "pet_json")) "Lymph_Nodes_Hypermetabolic_Regions"
      (Json.arr []) with
  | error e => rfl
  | ok lymph_nodes =>
  dsimp only
  cases dictGet (parse_json_cell (rowGet row "pet_json")) "Other_Hypermetabolic_Regions"
      (Json.arr []) with
  | error e => rfl
  | ok other_hyper =>
  dsimp only
  cases pySetMem clinical_reason allowedReasons with
  | error e => rfl
  | ok reasonIn =>
  dsimp only
  cases pySetMem primary_dx allowedDiagnoses with
  | error e => rfl
  | ok dxIn =>
  dsimp only
  cases chest <;> cases reasonIn <;> cases dxIn <;>
    cases pyLower (pyStrip (pyStr ct_contrast)) != "none" <;>
    cases (!pyTruthy lung_nodules || isEmptyList lung_nodules) <;>
    cases list_empty lymph_nodes <;>
    cases list_empty other_hyper <;>
    rfl

/-- C1: on a row whose `extraction_error` cell is empty or absent,
`evaluate_row` evaluates all seven remaining rules without
short-circuiting: the reason list is exactly the concatenation of the
named reasons of the failing rules (`flagReasons` of the independently
computed `ruleFlags`), and the returned verdict is `true` exactly when
that list is empty. -/
theorem evaluate_row_rules_independent (row : Row)
    (hno : pyTruthy (rowGet row "extraction_error") = false) :
    evaluate_row row =
      Except.map (fun f => ((flagReasons f).isEmpty, flagReasons f)) (ruleFlags row) ∧
    (∀ v rs, evaluate_row row = Except.ok (v, rs) → (v = true ↔ rs = [])) := by
  refine ⟨evaluate_row_eq_flags row hno, ?_⟩
  intro v rs h
  rw [evaluate_row_eq_flags row hno] at h
  cases hf : ruleFlags row with
  | error e => rw [hf] at h; exact Except.noConfusion h
  | ok f =>
      rw [hf] at h
      simp only [Except.map] at h
      injection h with h'
      injection h' with h1 h2
      subst h1; subst h2
      simp [List.isEmpty_iff]

/-- C1 witness: the spec's all-pass example row, and the verdict-reasons
link instantiated at its actual result. -/
theorem evaluate_row_rules_independent_witness :
    (evaluate_row
        [("ct_json", Json.str "\x7b\"CT_Regions\": [\"Chest\", \"Abdomen\"], \"CT_Contrast_Agent\": \"None\", \"Lung_Nodules\": [\x7b\"size_mm\": \"8\"\x7d]\x7d"),
         ("pet_json", Json.str "\x7b\"Clinical_Reason\": \"Indeterminate Pulmonary Nodule\", \"Primary_Diagnosis\": \"No Cancer\", \"Lymph_Nodes_Hypermetabolic_Regions\": [], \"Other_Hypermetabolic_Regions\": []\x7d")] =
      Except.map (fun f => ((flagReasons f).isEmpty, flagReasons f))
        (ruleFlags
          [("ct_json", Json.str "\x7b\"CT_Regions\": [\"Chest\", \"Abdomen\"], \"CT_Contrast_Agent\": \"None\", \"Lung_Nodules\": [\x7b\"size_mm\": \"8\"\x7d]\x7d"),
           ("pet_json", Json.str "\x7b\"Clinical_Reason\": \"Indeterminate Pulmonary Nodule\", \"Primary_Diagnosis\": \"No Cancer\", \"Lymph_Nodes_Hypermetabolic_Regions\": [], \"Other_Hypermetabolic_Regions\": []\x7d")])) ∧
    ((true : Bool) = true ↔ ([] : List String) = []) :=
  ⟨(evaluate_row_rules_independent
      [("ct_json", Json.str "\x7b\"CT_Regions\": [\"Chest\", \"Abdomen\"], \"CT_Contrast_Agent\": \"None\", \"Lung_Nodules\": [\x7b\"size_mm\": \"8\"\x7d]\x7d"),
       ("pet_json", Json.str "\x7b\"Clinical_Reason\": \"Indeterminate Pulmonary Nodule\", \"Primary_Diagnosis\": \"No Cancer\", \"Lymph_Nodes_Hypermetabolic_Regions\": [], \"Other_Hypermetabolic_Regions\": []\x7d")]
      rfl).1,
   (evaluate_row_rules_independent
      [("ct_json", Json.str "\x7b\"CT_Regions\": [\"Chest\", \"Abdomen\"], \"CT_Contrast_Agent\": \"None\", \"Lung_Nodules\": [\x7b\"size_mm\": \"8\"\x7d]\x7d"),
       ("pet_json", Json.str "\x7b\"Clinical_Reason\": \"Indeterminate Pulmonary Nodule\", \"Primary_Diagnosis\": \"No Cancer\", \"Lymph_Nodes_Hypermetabolic_Regions\": [], \"Other_Hypermetabolic_Regions\": []\x7d")]
      rfl).2 true [] rfl⟩

/-- C3: a row with a non-empty `extraction_error` string is excluded with
exactly that one reason; no other rule contributes. -/
theorem extraction_error_rows_excluded (row : Row) (s : String) (hs : s ≠ "")
    (h : rowGet row "extraction_error" = Json.str s) :
    evaluate_row row = Except.ok (false, ["extraction_error"]) := by
  rw [evaluate_row, h]
  simp [pyTruthy, hs]

/-- C3 witness. -/
theorem extraction_error_rows_excluded_witness :
    evaluate_row [("extraction_error", Json.str "boom"), ("ct_json", Json.str "\x7b\x7d")] =
      Except.ok (false, ["extraction_error"]) :=
  extraction_error_rows_excluded _ "boom" (by decide) rfl

/-- C4 (refuting totality): `evaluate_row` is not total over its input
domain.  A `CT_Regions` list with a non-string element reaches
`r.lower()` and raises `AttributeError`; a CT cell whose JSON is a list
rather than an object makes `ct.get` raise `AttributeError`. -/
theorem evaluate_row_not_total :
    evaluate_row [("ct_json", Json.str "\x7b\"CT_Regions\": [1]\x7d")] =
      Except.error "AttributeError: lower" ∧
    evaluate_row [("ct_json", Json.str "[1]")] =
      Except.error "AttributeError: get" :=
  ⟨rfl, rfl⟩

/-- Membership of the lymph-rule reason in the audit list is exactly
failure of the lymph-emptiness flag. -/
theorem mem_flagReasons_lymph (f : RuleFlags) :
    ("pet_lymph_hypermetabolic" ∈ flagReasons f) ↔ f.lymphEmpty = false := by
  rcases f with ⟨b1, b2, b3, b4, b5, b6, b7⟩
  revert b1 b2 b3 b4 b5 b6 b7
  decide

/-- Membership of the other-hypermetabolic reason in the audit list is
exactly failure of the corresponding flag. -/
theorem mem_flagReasons_other (f : RuleFlags) :
    ("pet_other_hypermetabolic" ∈ flagReasons f) ↔ f.otherEmpty = false := by
  rcases f with ⟨b1, b2, b3, b4, b5, b6, b7⟩
  revert b1 b2 b3 b4 b5 b6 b7
  decide

/-- Characterization of `_list_empty`: only `None`, a native empty list,
and a string that JSON-parses to an empty list count as empty.  In
particular the empty string does NOT count as empty (its parse fails). -/
theorem list_empty_iff (w : Json) :
    list_empty w = true ↔
      (w = Json.null ∨ w = Json.arr [] ∨
        ∃ s, w = Json.str s ∧ json_loads s = Except.ok (Json.arr [])) := by
  cases w with
  | null => simp [list_empty]
  | bool b => simp [list_empty]
  | num n => simp [list_empty]
  | obj fs => simp [list_empty]
  | arr xs => cases xs <;> simp [list_empty]
  | str s =>
      simp only [list_empty]
      cases hj : json_loads s with
      | error e => simp [hj]
      | ok v =>
          cases v with
          | arr xs => cases xs <;> simp [hj]
          | null => simp [hj]
          | bool b => simp [hj]
          | num n => simp [hj]
          | str t => simp [hj]
          | obj fs => simp [hj]

/-- Inversion of `ruleFlags`: when the pet-side field lookups are known,
the lymph/other flags are the `_list_empty` tests of those fields. -/
theorem ruleFlags_lymph_other (row : Row) (f : RuleFlags) (lymph other : Json)
    (hl : dictGet (parse_json_cell (rowGet row "pet_json"))
        "Lymph_Nodes_Hypermetabolic_Regions" (Json.arr []) = Except.ok lymph)
    (ho : dictGet (parse_json_cell (rowGet row "pet_json"))
        "Other_Hypermetabolic_Regions" (Json.arr []) = Except.ok other)
    (hf : ruleFlags row = Except.ok f) :
    f.lymphEmpty = list_empty lymph ∧ f.otherEmpty = list_empty other := by
  rw [ruleFlags, hl, ho] at hf
  revert hf
  cases dictGet (parse_json_cell (rowGet row "ct_json")) "CT_Regions" (Json.arr []) with
  | error e => exact fun hf => Except.noConfusion hf
  | ok ct_regions =>
  dsimp only
  cases dictGet (parse_json_cell (rowGet row "ct_json")) "CT_Contrast_Agent" (Json.str "") with
  | error e => exact fun hf => Except.noConfusion hf
  | ok ct_contrast =>
  dsimp only
  cases dictGet (parse_json_cell (rowGet row "ct_json")) "Lung_Nodules" (Json.arr []) with
  | error e => exact fun hf => Except.noConfusion hf
  | ok lung_nodules =>
  dsimp only
  cases contains_chest ct_regions with
  | error e => exact fun hf => Except.noConfusion hf
  | ok chest =>
  dsimp only
  cases dictGet (parse_json_cell (rowGet row "pet_json")) "Clinical_Reason" (Json.str "") with
  | error e => exact fun hf => Except.noConfusion hf
  | ok clinical_reason =>
  dsimp only
  cases dictGet (parse_json_cell (rowGet row "pet_json")) "Primary_Diagnosis" (Json.str "") with
  | error e => exact fun hf => Except.noConfusion hf
  | ok primary_dx =>
  dsimp only
  cases pySetMem clinical_reason allowedReasons with
  | error e => exact fun hf => Except.noConfusion hf
  | ok reasonIn =>
  dsimp only
  cases pySetMem primary_dx allowedDiagnoses with
  | error e => exact fun hf => Except.noConfusion hf
  | ok dxIn =>
  dsimp only
  intro hf
  cases hf
  exact ⟨rfl, rfl⟩

/-- C2 (amended): on a row without an extraction error whose evaluation
returns, the lymph-node and other-hypermetabolic rules each append their
reason exactly when `_list_empty` of the corresponding field is false,
and a field is `_list_empty` exactly when it is `None`, a native empty
list, or a string that JSON-parses to an empty list — the empty string
(whose parse fails) counts as NON-empty, as does any other value that
fails to parse as a JSON list. -/
theorem lymph_other_empty_semantics (row : Row) (v : Bool) (rs : List String)
    (lymph other : Json)
    (hno : pyTruthy (rowGet row "extraction_error") = false)
    (hl : dictGet (parse_json_cell (rowGet row "pet_json"))
        "Lymph_Nodes_Hypermetabolic_Regions" (Json.arr []) = Except.ok lymph)
    (ho : dictGet (parse_json_cell (rowGet row "pet_json"))
        "Other_Hypermetabolic_Regions" (Json.arr []) = Except.ok other)
    (h : evaluate_row row = Except.ok (v, rs)) :
    (("pet_lymph_hypermetabolic" ∈ rs) ↔ list_empty lymph = false) ∧
    (("pet_other_hypermetabolic" ∈ rs) ↔ list_empty other = false) ∧
    (∀ w : Json, list_empty w = true ↔
      (w = Json.null ∨ w = Json.arr [] ∨
        ∃ s, w = Json.str s ∧ json_loads s = Except.ok (Json.arr []))) := by
  rw [evaluate_row_eq_flags row hno] at h
  cases hf : ruleFlags row with
  | error e => rw [hf] at h; exact Except.noConfusion h
  | ok f =>
      rw [hf] at h
      simp only [Except.map] at h
      injection h with h'
      injection h' with h1 h2
      subst h2
      obtain ⟨hfl, hfo⟩ := ruleFlags_lymph_other row f lymph other hl ho hf
      exact ⟨by rw [mem_flagReasons_lymph, hfl],
             by rw [mem_flagReasons_other, hfo],
             list_empty_iff⟩

/-- C2 counterexample: a pet extraction whose lymph-findings field is the
empty string is treated as NON-empty — the rule fails and appends its
reason — refuting the claim that an empty string counts as empty. -/
theorem lymph_empty_string_not_empty :
    evaluate_row
        [("ct_json", Json.str "\x7b\"CT_Regions\": [\"Chest\"], \"CT_Contrast_Agent\": \"None\", \"Lung_Nodules\": [\x7b\"size_mm\": \"8\"\x7d]\x7d"),
         ("pet_json", Json.str "\x7b\"Clinical_Reason\": \"Indeterminate Pulmonary Nodule\", \"Primary_Diagnosis\": \"No Cancer\", \"Lymph_Nodes_Hypermetabolic_Regions\": \"\", \"Other_Hypermetabolic_Regions\": []\x7d")] =
      Except.ok (false, ["pet_lymph_hypermetabolic"]) ∧
    list_empty (Json.str "") = false :=
  ⟨rfl, rfl⟩

/-- C2 witness: the amended theorem applied at the empty-string row, the
emptiness characterization instantiated at the empty string. -/
theorem lymph_other_empty_semantics_witness :
    (("pet_lymph_hypermetabolic" ∈ ["pet_lymph_hypermetabolic"]) ↔
        list_empty (Json.str "") = false) ∧
    (("pet_other_hypermetabolic" ∈ ["pet_lymph_hypermetabolic"]) ↔
        list_empty (Json.arr []) = false) ∧
    (list_empty (Json.str "") = true ↔
      (Json.str "" = Json.null ∨ Json.str "" = Json.arr [] ∨
        ∃ s, Json.str "" = Json.str s ∧ json_loads s = Except.ok (Json.arr []))) :=
  ⟨(lymph_other_empty_semantics
      [("ct_json", Json.str "\x7b\"CT_Regions\": [\"Chest\"], \"CT_Contrast_Agent\": \"None\", \"Lung_Nodules\": [\x7b\"size_mm\": \"8\"\x7d]\x7d"),
       ("pet_json", Json.str "\x7b\"Clinical_Reason\": \"Indeterminate Pulmonary Nodule\", \"Primary_Diagnosis\": \"No Cancer\", \"Lymph_Nodes_Hypermetabolic_Regions\": \"\", \"Other_Hypermetabolic_Regions\": []\x7d")]
      false ["pet_lymph_hypermetabolic"] (Json.str "") (Json.arr [])
      rfl rfl rfl rfl).1,
   (lymph_other_empty_semantics
      [("ct_json", Json.str "\x7b\"CT_Regions\": [\"Chest\"], \"CT_Contrast_Agent\": \"None\", \"Lung_Nodules\": [\x7b\"size_mm\": \"8\"\x7d]\x7d"),
       ("pet_json", Json.str "\x7b\"Clinical_Reason\": \"Indeterminate Pulmonary Nodule\", \"Primary_Diagnosis\": \"No Cancer\", \"Lymph_Nodes_Hypermetabolic_Regions\": \"\", \"Other_Hypermetabolic_Regions\": []\x7d")]
      false ["pet_lymph_hypermetabolic"] (Json.str "") (Json.arr [])
      rfl rfl rfl rfl).2.1,
   (lymph_other_empty_semantics
      [("ct_json", Json.str "\x7b\"CT_Regions\": [\"Chest\"], \"CT_Contrast_Agent\": \"None\", \"Lung_Nodules\": [\x7b\"size_mm\": \"8\"\x7d]\x7d"),
       ("pet_json", Json.str "\x7b\"Clinical_Reason\": \"Indeterminate Pulmonary Nodule\", \"Primary_Diagnosis\": \"No Cancer\", \"Lymph_Nodes_Hypermetabolic_Regions\": \"\", \"Other_Hypermetabolic_Regions\": []\x7d")]
      false ["pet_lymph_hypermetabolic"] (Json.str "") (Json.arr [])
      rfl rfl rfl rfl).2.2 (Json.str "")⟩

/-! ### Extraction ordering lemmas -/

/-- The recorded index of a pair outcome is the original row index,
whether the future succeeded or raised. -/
theorem pairOutcome_idx (extract : Nat → Except String (Dict × Dict)) (i : Nat) :
    (pairOutcome extract i).idx = i := by
  unfold pairOutcome
  cases extract i with
  | error e => rfl
  | ok p => cases p; rfl

/-- Sorting the completed results by original index recovers the
canonical per-row outcome list, whatever the completion order was. -/
theorem sortResults_canonical (extract : Nat → Except String (Dict × Dict))
    (n : Nat) (order : List Nat) (h : order.Perm (List.range n)) :
    sortResults (collectResults extract order) =
      (List.range n).map (pairOutcome extract) := by
  unfold sortResults collectResults
  have hperm : List.Perm ((order.map (pairOutcome extract)).mergeSort
        (fun a b => a.idx ≤ b.idx)) ((List.range n).map (pairOutcome extract)) :=
    (List.mergeSort_perm _ _).trans (h.map (pairOutcome extract))
  have hcanon : ((List.range n).map (pairOutcome extract)).Pairwise
      (fun a b : RowResult => a.idx < b.idx) := by
    refine (List.pairwise_map).mpr ?_
    exact (List.pairwise_lt_range n).imp
      (fun {a b} hab => by simpa [pairOutcome_idx] using hab)
  have hne : ((order.map (pairOutcome extract)).mergeSort
      (fun a b => a.idx ≤ b.idx)).Pairwise (fun a b : RowResult => a.idx ≠ b.idx) := by
    refine (hperm.pairwise_iff (fun {x y} hxy => hxy.symm)).mpr ?_
    exact hcanon.imp (fun {a b} hab => Nat.ne_of_lt hab)
  have hle : ((order.map (pairOutcome extract)).mergeSort
      (fun a b => a.idx ≤ b.idx)).Pairwise (fun a b : RowResult => a.idx ≤ b.idx) := by
    have := @List.sorted_mergeSort RowResult
      (fun a b => decide (a.idx ≤ b.idx))
      (fun a b c hab hbc => by
        simp only [decide_eq_true_iff] at hab hbc ⊢
        exact Nat.le_trans hab hbc)
      (fun a b => by
        simp only [Bool.or_eq_true, decide_eq_true_iff]
        exact Nat.le_total a.idx b.idx)
      (order.map (pairOutcome extract))
    exact this.imp (fun {a b} hab => by simpa using hab)
  have hlt : ((order.map (pairOutcome extract)).mergeSort
      (fun a b => a.idx ≤ b.idx)).Pairwise (fun a b : RowResult => a.idx < b.idx) :=
    (hle.and hne).imp (fun {a b} hab => Nat.lt_of_le_of_ne hab.1 hab.2)
  haveI : IsAntisymm RowResult (fun a b => a.idx < b.idx) :=
    ⟨fun a b h1 h2 => absurd (Nat.lt_trans h1 h2) (Nat.lt_irrefl _)⟩
  exact List.eq_of_perm_of_sorted hperm hlt hcanon

/-- C5: the extraction output is invariant under the completion order of
the futures — the completed results are re-sorted by original row index,
so they are the canonical per-row outcomes in input order, and the output
table equals the one produced under in-order completion. -/
theorem run_extraction_row_order (rows : List Row)
    (extract : Nat → Except String (Dict × Dict)) (order : List Nat)
    (h : order.Perm (List.range rows.length)) :
    sortResults (collectResults extract order) =
      (List.range rows.length).map (pairOutcome extract) ∧
    run_extraction rows extract order none =
      run_extraction rows extract (List.range rows.length) none := by
  have hc := sortResults_canonical extract rows.length order h
  refine ⟨hc, ?_⟩
  unfold run_extraction
  rw [hc, sortResults_canonical extract rows.length (List.range rows.length)
    (List.Perm.refl _)]

/-- C5 witness: two rows completing in reversed order. -/
theorem run_extraction_row_order_witness :
    sortResults (collectResults (fun i => Except.ok ([("k", Json.num (i : Int))], [])) [1, 0]) =
      (List.range 2).map (pairOutcome (fun i => Except.ok ([("k", Json.num (i : Int))], []))) ∧
    run_extraction [[("patient_id", Json.num 1)], [("patient_id", Json.num 2)]]
        (fun i => Except.ok ([("k", Json.num (i : Int))], [])) [1, 0] none =
      run_extraction [[("patient_id", Json.num 1)], [("patient_id", Json.num 2)]]
        (fun i => Except.ok ([("k", Json.num (i : Int))], [])) (List.range 2) none :=
  run_extraction_row_order
    [[("patient_id", Json.num 1)], [("patient_id", Json.num 2)]]
    (fun i => Except.ok ([("k", Json.num (i : Int))], [])) [1, 0] (by decide)

/-- Column assignment keeps the table length when the value list covers
every row. -/
theorem addColumn_length (t : List Row) (name : String) (vals : List Json)
    (n : Nat) (ht : t.length = n) (hv : vals.length = n) :
    (addColumn t name vals).length = n := by
  simp [addColumn, ht, hv]

/-- Folding column assignments over a key list keeps the table length
when every value list covers every row. -/
theorem foldl_addColumn_length (keys : List String) (t : List Row) (pre : String)
    (valsOf : String → List Json) (n : Nat)
    (ht : t.length = n) (hv : ∀ k, (valsOf k).length = n) :
    (keys.foldl (fun acc key => addColumn acc (pre ++ key) (valsOf key)) t).length = n := by
  induction keys generalizing t with
  | nil => exact ht
  | cons k ks ih =>
      apply ih
      exact addColumn_length _ _ _ n ht (hv k)

/-- C7: a pair whose extraction terminally fails is caught per-pair: the
batch completes with an output row for every input row, the failed row's
recorded outcome has both JSON results empty and the exception string as
its error, and every sibling row's outcome is unaffected by what the
failed pair's extraction would have returned. -/
theorem failed_pair_isolated (rows : List Row)
    (extract : Nat → Except String (Dict × Dict)) (order : List Nat)
    (i : Nat) (e : String)
    (hperm : order.Perm (List.range rows.length))
    (hi : i < rows.length)
    (herr : extract i = Except.error e) :
    (run_extraction rows extract order none).length = rows.length ∧
    (sortResults (collectResults extract order))[i]? =
      some ⟨i, [], [], e⟩ ∧
    (∀ extract2 : Nat → Except String (Dict × Dict),
      (∀ j, j ≠ i → extract2 j = extract j) →
      ∀ j, j ≠ i → pairOutcome extract2 j = pairOutcome extract j) := by
  have hc := sortResults_canonical extract rows.length order hperm
  have hslen : (sortResults (collectResults extract order)).length = rows.length := by
    rw [hc]; simp
  refine ⟨?_, ?_, ?_⟩
  · simp only [run_extraction]
    refine foldl_addColumn_length _ _ _ _ rows.length ?_ (fun k => by simp [hslen])
    refine foldl_addColumn_length _ _ _ _ rows.length ?_ (fun k => by simp [hslen])
    refine addColumn_length _ _ _ _ ?_ (by simp [hslen])
    refine addColumn_length _ _ _ _ ?_ (by simp [hslen])
    refine addColumn_length _ _ _ _ ?_ (by simp [hslen])
    rfl
  · rw [hc, List.getElem?_map, List.getElem?_range hi]
    simp [pairOutcome, herr]
  · intro extract2 hagree j hj
    unfold pairOutcome
    rw [hagree j hj]

/-- C7 witness: two rows, the second of which fails terminally,
completing in reversed order. -/
theorem failed_pair_isolated_witness :
    (run_extraction [[("patient_id", Json.num 1)], [("patient_id", Json.num 2)]]
        (fun i => if i == 1 then Except.error "boom" else Except.ok ([], []))
        [1, 0] none).length = 2 ∧
    (sortResults (collectResults
        (fun i => if i == 1 then Except.error "boom" else Except.ok ([], []))
        [1, 0]))[1]? = some ⟨1, [], [], "boom"⟩ ∧
    pairOutcome (fun i => if i == 1 then Except.error "boom" else Except.ok ([], [])) 0 =
      pairOutcome (fun i => if i == 1 then Except.error "boom" else Except.ok ([], [])) 0 :=
  ⟨(failed_pair_isolated [[("patient_id", Json.num 1)], [("patient_id", Json.num 2)]]
      (fun i => if i == 1 then Except.error "boom" else Except.ok ([], []))
      [1, 0] 1 "boom" (by decide) (by decide) rfl).1,
   (failed_pair_isolated [[("patient_id", Json.num 1)], [("patient_id", Json.num 2)]]
      (fun i => if i == 1 then Except.error "boom" else Except.ok ([], []))
      [1, 0] 1 "boom" (by decide) (by decide) rfl).2.1,
   (failed_pair_isolated [[("patient_id", Json.num 1)], [("patient_id", Json.num 2)]]
      (fun i => if i == 1 then Except.error "boom" else Except.ok ([], []))
      [1, 0] 1 "boom" (by decide) (by decide) rfl).2.2
     (fun i => if i == 1 then Except.error "boom" else Except.ok ([], []))
     (fun j hj => rfl) 0 (by decide)⟩

/-- C10: `max_rows` truncates only when truthy — a positive `n` keeps
exactly the first `n` input rows, while `0` is falsy and, like `None`,
leaves the whole table to be extracted. -/
theorem max_rows_truthy_truncation (rows : List Row)
    (extract : Nat → Except String (Dict × Dict)) (order : List Nat) :
    (∀ n : Int, 0 < n →
      run_extraction rows extract order (some n) =
        run_extraction (rows.take n.toNat) extract order none) ∧
    run_extraction rows extract order (some 0) =
      run_extraction rows extract order none ∧
    (∀ n : Int, 0 < n → pyHeadOpt (some n) rows = rows.take n.toNat) ∧
    pyHeadOpt (α := Row) (some 0) rows = rows := by
  have hpos : ∀ n : Int, 0 < n → pyHeadOpt (some n) rows = rows.take n.toNat := by
    intro n hn
    have hne : (n == 0) = false := by
      simp only [beq_eq_false_iff_ne, ne_eq]
      omega
    simp [pyHeadOpt, pyHead, hne, Int.le_of_lt hn]
  refine ⟨?_, ?_, hpos, by simp [pyHeadOpt]⟩
  · intro n hn
    simp only [run_extraction, hpos n hn]
    rfl
  · simp only [run_extraction]
    rfl

/-- C10 witness: three rows with `max_rows = 2` and `max_rows = 0`. -/
theorem max_rows_truthy_truncation_witness :
    run_extraction [[("a", Json.num 1)], [("a", Json.num 2)], [("a", Json.num 3)]]
        (fun _ => Except.ok ([], [])) [0, 1, 2] (some 2) =
      run_extraction ([[("a", Json.num 1)], [("a", Json.num 2)], [("a", Json.num 3)]].take (2 : Int).toNat)
        (fun _ => Except.ok ([], [])) [0, 1, 2] none ∧
    run_extraction [[("a", Json.num 1)], [("a", Json.num 2)], [("a", Json.num 3)]]
        (fun _ => Except.ok ([], [])) [0, 1, 2] (some 0) =
      run_extraction [[("a", Json.num 1)], [("a", Json.num 2)], [("a", Json.num 3)]]
        (fun _ => Except.ok ([], [])) [0, 1, 2] none ∧
    pyHeadOpt (some 2) [[("a", Json.num 1)], [("a", Json.num 2)], [("a", Json.num 3)]] =
      [[("a", Json.num 1)], [("a", Json.num 2)], [("a", Json.num 3)]].take (2 : Int).toNat ∧
    pyHeadOpt (α := Row) (some 0)
        [[("a", Json.num 1)], [("a", Json.num 2)], [("a", Json.num 3)]] =
      [[("a", Json.num 1)], [("a", Json.num 2)], [("a", Json.num 3)]] :=
  ⟨(max_rows_truthy_truncation
      [[("a", Json.num 1)], [("a", Json.num 2)], [("a", Json.num 3)]]
      (fun _ => Except.ok ([], [])) [0, 1, 2]).1 2 (by decide),
   (max_rows_truthy_truncation
      [[("a", Json.num 1)], [("a", Json.num 2)], [("a", Json.num 3)]]
      (fun _ => Except.ok ([], [])) [0, 1, 2]).2.1,
   (max_rows_truthy_truncation
      [[("a", Json.num 1)], [("a", Json.num 2)], [("a", Json.num 3)]]
      (fun _ => Except.ok ([], [])) [0, 1, 2]).2.2.1 2 (by decide),
   (max_rows_truthy_truncation
      [[("a", Json.num 1)], [("a", Json.num 2)], [("a", Json.num 3)]]
      (fun _ => Except.ok ([], [])) [0, 1, 2]).2.2.2⟩

/-! ### Retry-loop lemmas -/

/-- Success case of the retry loop: if every attempt before `k` fails and
attempt `k` succeeds within the window, the loop returns attempt `k`'s
result after sleeping `2 ^ i` seconds for each failed attempt `i`. -/
theorem retryAux_ok (call : Nat → Except String Dict) (retries k : Nat) (a : Dict) :
    ∀ fuel attempt, attempt + fuel = retries + 1 → attempt ≤ k → k ≤ retries →
    (∀ i, attempt ≤ i → i < k → ∃ e, call i = Except.error e) →
    call k = Except.ok a →
    retryAux call retries attempt fuel =
      (Except.ok a, (List.range' attempt (k - attempt)).map (fun i => 2 ^ i)) := by
  intro fuel
  induction fuel with
  | zero => intro attempt hinv hak hkr hfail hok; omega
  | succ fuel ih =>
      intro attempt hinv hak hkr hfail hok
      by_cases hak2 : attempt = k
      · subst hak2
        rw [retryAux, hok]
        simp
      · have hlt : attempt < k := Nat.lt_of_le_of_ne hak hak2
        obtain ⟨e, he⟩ := hfail attempt (Nat.le_refl _) hlt
        have hne : (attempt == retries) = false := by
          simp only [beq_eq_false_iff_ne, ne_eq]
          omega
        rw [retryAux, he, hne]
        have := ih (attempt + 1) (by omega) hlt hkr
          (fun i h1 h2 => hfail i (by omega) h2) hok
        rw [this]
        simp only [Bool.false_eq_true, if_false]
        have hk : k - attempt = (k - (attempt + 1)) + 1 := by omega
        rw [hk, List.range'_succ]
        rfl

/-- Failure case of the retry loop: if every attempt in the window fails,
the loop re-raises the final attempt's exception after sleeping
`2 ^ i` seconds for each non-final failed attempt `i`. -/
theorem retryAux_err (call : Nat → Except String Dict) (retries : Nat) (efin : String) :
    ∀ fuel attempt, attempt + fuel = retries + 1 → attempt ≤ retries →
    (∀ i, attempt ≤ i → i < retries → ∃ e, call i = Except.error e) →
    call retries = Except.error efin →
    retryAux call retries attempt fuel =
      (Except.error efin, (List.range' attempt (retries - attempt)).map (fun i => 2 ^ i)) := by
  intro fuel
  induction fuel with
  | zero => intro attempt hinv har hfail hfin; omega
  | succ fuel ih =>
      intro attempt hinv har hfail hfin
      by_cases har2 : attempt = retries
      · subst har2
        rw [retryAux, hfin]
        simp
      · have hlt : attempt < retries := Nat.lt_of_le_of_ne har har2
        obtain ⟨e, he⟩ := hfail attempt (Nat.le_refl _) hlt
        have hne : (attempt == retries) = false := by
          simp only [beq_eq_false_iff_ne, ne_eq]
          omega
        rw [retryAux, he, hne]
        have := ih (attempt + 1) (by omega) hlt
          (fun i h1 h2 => hfail i (by omega) h2) hfin
        rw [this]
        simp only [Bool.false_eq_true, if_false]
        have hk : retries - attempt = (retries - (attempt + 1)) + 1 := by omega
        rw [hk, List.range'_succ]
        rfl

/-- C6: the LLM call retries up to the configured count on any exception,
sleeping `2 ^ attempt` seconds after each non-final failed attempt; a
call whose first `k - 1` attempts fail and whose `k`-th attempt succeeds
(within the budget) returns the parsed success with no error, and a call
whose every attempt fails propagates the final attempt's exception. -/
theorem extract_with_retry_policy :
    (∀ (call : Nat → Except String Dict) (retries k : Nat) (a : Dict),
      1 ≤ k → k ≤ retries →
      (∀ i, 1 ≤ i → i < k → ∃ e, call i = Except.error e) →
      call k = Except.ok a →
      extract_with_retry call retries =
        (Except.ok a, (List.range' 1 (k - 1)).map (fun i => 2 ^ i))) ∧
    (∀ (call : Nat → Except String Dict) (retries : Nat) (efin : String),
      1 ≤ retries →
      (∀ i, 1 ≤ i → i < retries → ∃ e, call i = Except.error e) →
      call retries = Except.error efin →
      extract_with_retry call retries =
        (Except.error efin, (List.range' 1 (retries - 1)).map (fun i => 2 ^ i))) := by
  constructor
  · intro call retries k a hk1 hkr hfail hok
    exact retryAux_ok call retries k a retries 1 (by omega) hk1 hkr hfail hok
  · intro call retries efin hr1 hfail hfin
    exact retryAux_err call retries efin retries 1 (by omega) hr1 hfail hfin

/-- C6 witness: fails twice, succeeds on the third of three attempts
(sleeps 2 then 4 seconds); and fails on all three attempts, propagating
the third failure. -/
theorem extract_with_retry_policy_witness :
    extract_with_retry
        (fun i => if i == 3 then Except.ok [] else Except.error ("e" ++ toString i)) 3 =
      (Except.ok [], [2, 4]) ∧
    extract_with_retry (fun i => Except.error ("e" ++ toString i)) 3 =
      (Except.error "e3", [2, 4]) :=
  ⟨extract_with_retry_policy.1
      (fun i => if i == 3 then Except.ok [] else Except.error ("e" ++ toString i)) 3 3 []
      (by decide) (by decide)
      (fun i h1 h2 => ⟨"e" ++ toString i, by interval_cases i <;> rfl⟩) rfl,
   extract_with_retry_policy.2 (fun i => Except.error ("e" ++ toString i)) 3 "e3"
      (by decide) (fun i h1 h2 => ⟨"e" ++ toString i, rfl⟩) rfl⟩

/-! ### Response-parsing and column lemmas -/

/-- C8: `_parse_json` returns the strict parse of the stripped response
when it succeeds; on strict failure it reparses the substring from the
first left brace to the last right brace when that slice is non-trivial,
and otherwise re-raises the original error. -/
theorem parse_json_fallback :
    (∀ (t : String) (v : Json), json_loads (pyStrip t) = Except.ok v →
      parse_json t = Except.ok v) ∧
    (∀ (t e : String) (a b : Nat),
      json_loads (pyStrip t) = Except.error e →
      pyFind (pyStrip t) lbraceChar = some a →
      pyRFind (pyStrip t) rbraceChar = some b →
      a < b →
      parse_json t = json_loads (strSlice (pyStrip t) a (b + 1))) ∧
    (∀ (t e : String),
      json_loads (pyStrip t) = Except.error e →
      (∀ a b, pyFind (pyStrip t) lbraceChar = some a →
        pyRFind (pyStrip t) rbraceChar = some b → ¬ a < b) →
      parse_json t = Except.error e) := by
  refine ⟨?_, ?_, ?_⟩
  · intro t v h
    simp [parse_json, h]
  · intro t e a b herr hf hr hab
    simp [parse_json, herr, hf, hr, hab]
  · intro t e herr hno
    simp only [parse_json, herr]
    cases hf : pyFind (pyStrip t) lbraceChar with
    | none => rfl
    | some a =>
        cases hr : pyRFind (pyStrip t) rbraceChar with
        | none => rfl
        | some b => exact if_neg (hno a b hf hr)

/-- C8 witness: a pure-JSON response, a response with noise around the
braces, and a response with no brace-delimited slice. -/
theorem parse_json_fallback_witness :
    parse_json " \x7b\"a\": 1\x7d " = Except.ok (Json.obj [("a", Json.num 1)]) ∧
    parse_json "noise \x7b\"a\": 1\x7d tail" =
      json_loads (strSlice (pyStrip "noise \x7b\"a\": 1\x7d tail") 6 (13 + 1)) ∧
    parse_json "no json at all" = Except.error "Expecting value" :=
  ⟨parse_json_fallback.1 " \x7b\"a\": 1\x7d " (Json.obj [("a", Json.num 1)]) rfl,
   parse_json_fallback.2.1 "noise \x7b\"a\": 1\x7d tail" "Expecting value" 6 13
     rfl rfl rfl (by decide),
   parse_json_fallback.2.2 "no json at all" "Expecting value" rfl
     (fun a b ha hb => Option.noConfusion ha)⟩

/-- C9: the flattened columns for one modality are exactly the expected
keys that were discovered, in their fixed priority order, followed by the
remaining discovered keys in sorted order; every discovered key is a
column, and a row missing a column's key materializes as the empty
string. -/
theorem flattened_columns_complete (values : List Dict) (expected : List String) :
    (∀ k d, d ∈ values → k ∈ dictKeys d → k ∈ ordered_keys values expected) ∧
    (∃ extras, ordered_keys values expected =
        expected.filter (fun k => (discoveredKeys values).contains k) ++ extras ∧
      extras.Sorted (fun a b : String => a ≤ b) ∧
      (∀ k, k ∈ extras → k ∉ expected ∧ k ∈ discoveredKeys values)) ∧
    (∀ (k : String) (d : Dict), k ∉ dictKeys d →
      normalize_json_value (dictFind d k) = Json.str "") ∧
    (∀ k, (values.map (fun d => normalize_json_value (dictFind d k))).length =
      values.length) := by
  refine ⟨?_, ?_, ?_, fun k => by simp⟩
  · intro k d hd hk
    have hdisc : k ∈ discoveredKeys values :=
      List.mem_dedup.mpr (List.mem_flatten.mpr ⟨dictKeys d, List.mem_map_of_mem _ hd, hk⟩)
    unfold ordered_keys
    by_cases hexp : k ∈ expected
    · refine List.mem_append_left _ (List.mem_filter.mpr ⟨hexp, ?_⟩)
      simpa using hdisc
    · refine List.mem_append_right _ ?_
      rw [List.mem_mergeSort]
      refine List.mem_filter.mpr ⟨hdisc, ?_⟩
      simpa using hexp
  · refine ⟨((discoveredKeys values).filter
        (fun k => !expected.contains k)).mergeSort strLeB, rfl, ?_, ?_⟩
    · have hs := @List.sorted_mergeSort String strLeB
        (fun a b c hab hbc => by
          simp only [strLeB, decide_eq_true_iff] at hab hbc ⊢
          exact le_trans hab hbc)
        (fun a b => by
          simp only [strLeB, Bool.or_eq_true, decide_eq_true_iff]
          exact le_total a b)
        ((discoveredKeys values).filter (fun k => !expected.contains k))
      exact hs.imp (fun {a b} hab => by simpa [strLeB] using hab)
    · intro k hk
      rw [List.mem_mergeSort] at hk
      obtain ⟨h1, h2⟩ := List.mem_filter.mp hk
      refine ⟨?_, h1⟩
      simpa using h2
  · intro k d hk
    have hfind : List.find? (fun kv => kv.1 == k) d.reverse = none := by
      rw [List.find?_eq_none]
      intro x hx hcontra
      have hx1 : x ∈ d := List.mem_reverse.mp hx
      have hmem : x.1 ∈ dictKeys d := List.mem_map_of_mem _ hx1
      have heq : x.1 = k := by simpa using hcontra
      exact hk (heq ▸ hmem)
    have hnone : objLookup d k = none := by
      unfold objLookup
      rw [hfind]
      rfl
    simp [dictFind, hnone, normalize_json_value]

/-- C9 witness: two extraction dicts with one expected and two extra
keys. -/
theorem flattened_columns_complete_witness :
    "Zeta" ∈ ordered_keys
        [[("Zeta", Json.num 1), ("CT_Regions", Json.null)], [("Alpha", Json.num 2)]]
        expectedCtKeys ∧
    normalize_json_value (dictFind [("Alpha", Json.num 2)] "Missing") = Json.str "" ∧
    ([[("Zeta", Json.num 1), ("CT_Regions", Json.null)], [("Alpha", Json.num 2)]].map
        (fun d => normalize_json_value (dictFind d "Zeta"))).length = 2 :=
  ⟨(flattened_columns_complete
      [[("Zeta", Json.num 1), ("CT_Regions", Json.null)], [("Alpha", Json.num 2)]]
      expectedCtKeys).1 "Zeta" [("Zeta", Json.num 1), ("CT_Regions", Json.null)]
      (List.mem_cons_self _ _) (by decide),
   (flattened_columns_complete
      [[("Zeta", Json.num 1), ("CT_Regions", Json.null)], [("Alpha", Json.num 2)]]
      expectedCtKeys).2.2.1 "Missing" [("Alpha", Json.num 2)] (by decide),
   (flattened_columns_complete
      [[("Zeta", Json.num 1), ("CT_Regions", Json.null)], [("Alpha", Json.num 2)]]
      expectedCtKeys).2.2.2 "Zeta"⟩

end CTPet
